import Mathlib

/-!
Verification development for the multi-tenant SaaS backend
(`backend/app`): a shallow embedding of the JWT token service
(`core/utils.py`), the revocation store (`blueprints/auth/models.py`),
the identity-resolution middleware (`core/middleware.py`), the permission
aggregator and guard (`core/decorators.py`) and the auth service flows
(`blueprints/auth/services.py`), together with theorems about them.

Modelling conventions:
* UUIDs are modelled as `Nat`, timestamps as `Nat` (seconds).
* A JWT string is modelled by what `jwt.decode` can extract from it:
  either `Token.malformed r` (structurally invalid or bad signature —
  PyJWT raises `InvalidTokenError` with message `r`) or
  `Token.signed p` (signature valid under the configured key, carrying
  payload `p`).  PyJWT verifies the signature before validating claims,
  so an expired-signature error is only reachable for a `signed` token.
* Database tables are lists of rows; SQLAlchemy queries become list
  filters with decidable predicates.
* Raised exceptions become `Except` errors carrying the same messages
  the Python exception classes would carry.
-/

namespace ItsDec

/-- Tenant lifecycle status (`tenants/models.py`, `TenantStatus`). -/
inductive TenantStatus where
  | trial
  | active
  | suspended
  | canceled
deriving DecidableEq, Repr

/-- Row of the `users` table (`users/models.py`): only the columns the
authorization core reads. -/
structure UserRow where
  id : Nat
  is_active : Bool
  password_hash : String
deriving DecidableEq, Repr

/-- Row of the `tenants` table (`tenants/models.py`). -/
structure TenantRow where
  id : Nat
  status : TenantStatus
  deleted_at : Option Nat
deriving DecidableEq, Repr

/-- Derived property `Tenant.is_deleted` (`tenants/models.py`): the
soft-delete timestamp is set. -/
def TenantRow.is_deleted (t : TenantRow) : Bool :=
  t.deleted_at.isSome

/-- Row of `tenant_users` (`tenants/models.py`, `TenantUser`). -/
structure TenantUserRow where
  user_id : Nat
  tenant_id : Nat
deriving DecidableEq, Repr

/-- Row of `user_roles` (`rbac/models.py`, `UserRole`): `store_id = none`
means the assignment is tenant-wide. -/
structure UserRoleRow where
  user_id : Nat
  role_id : Nat
  tenant_id : Nat
  store_id : Option Nat
deriving DecidableEq, Repr

/-- Row of `role_permissions` (`rbac/models.py`, `RolePermission`). -/
structure RolePermissionRow where
  role_id : Nat
  permission_id : Nat
deriving DecidableEq, Repr

/-- Row of `permissions` (`rbac/models.py`, `Permission`). -/
structure PermissionRow where
  id : Nat
  name : String
deriving DecidableEq, Repr

/-- Row of `blacklisted_tokens` (`auth/models.py`, `BlacklistedToken`). -/
structure BlacklistedTokenRow where
  jti : String
  user_id : Nat
  token_type : String
  expires_at : Nat
  reason : Option String
deriving DecidableEq, Repr

/-- Row of `user_token_revocations` (`auth/models.py`,
`UserTokenRevocation`): at most one row per user (unique constraint on
`user_id`). -/
structure UserTokenRevocationRow where
  user_id : Nat
  revoked_at : Nat
deriving DecidableEq, Repr

/-- Row of `password_reset_tokens` (`auth/models.py`,
`PasswordResetToken`). -/
structure PasswordResetTokenRow where
  token : String
  user_id : Nat
  expires_at : Nat
  used_at : Option Nat
deriving DecidableEq, Repr

/-- The database state visible to the authorization core. -/
structure Db where
  users : List UserRow
  tenants : List TenantRow
  tenant_users : List TenantUserRow
  user_roles : List UserRoleRow
  role_permissions : List RolePermissionRow
  permissions : List PermissionRow
  blacklisted_tokens : List BlacklistedTokenRow
  user_token_revocations : List UserTokenRevocationRow
  password_reset_tokens : List PasswordResetTokenRow
deriving Repr

/-- The `db.session.get(User, id)` lookup. -/
def Db.findUser (db : Db) (uid : Nat) : Option UserRow :=
  db.users.find? (fun u => decide (u.id = uid))

/-- The `db.session.get(Tenant, id)` lookup. -/
def Db.findTenant (db : Db) (tid : Nat) : Option TenantRow :=
  db.tenants.find? (fun t => decide (t.id = tid))

/-- JWT claim payload (the dict produced by `jwt.decode`): the claims
the backend reads.  Optional fields model `payload.get(...)` returning
`None` when the claim is absent. -/
structure TokenPayload where
  jti : Option String
  user_id : Option Nat
  tenant_id : Option Nat
  typ : Option String
  iat : Nat
  exp : Option Nat
deriving DecidableEq, Repr

/-- A JWT string, as seen through `jwt.decode` under the configured key
and algorithm: `malformed r` covers every structural or signature
failure (tampered payload, wrong algorithm, unparseable token — PyJWT
message `r`), `signed p` is a token whose signature verifies. -/
inductive Token where
  | malformed (reason : String)
  | signed (payload : TokenPayload)
deriving DecidableEq, Repr

/-- JWT-layer errors of `core/utils.py`: `TokenExpiredError` and
`InvalidTokenError`, each carrying its message. -/
inductive JwtError where
  | tokenExpired (msg : String)
  | invalidToken (msg : String)
deriving DecidableEq, Repr

/-- Embedding of `decode_token` (`core/utils.py` lines 97-121):
`jwt.decode` with full validation — signature first (PyJWT), then the
`exp` claim (expired iff `exp < now`) — with PyJWT exceptions re-raised
as `TokenExpiredError("Token has expired")` /
`InvalidTokenError("Invalid token: " + str(e))`. -/
def decode_token (now : Nat) (t : Token) : Except JwtError TokenPayload :=
  match t with
  | .malformed r => .error (.invalidToken ("Invalid token: " ++ r))
  | .signed p =>
    match p.exp with
    | some e => if e < now then .error (.tokenExpired "Token has expired") else .ok p
    | none => .ok p

/-- Embedding of `get_token_payload` (`core/utils.py` lines 124-149):
`jwt.decode` with `verify_exp` disabled — the signature is still
verified (only the expiry claim check is skipped), and any
`jwt.InvalidTokenError` is re-raised as `InvalidTokenError`. -/
def get_token_payload (t : Token) : Except JwtError TokenPayload :=
  match t with
  | .malformed r => .error (.invalidToken ("Invalid token: " ++ r))
  | .signed p => .ok p

/-- Rendering of the `type` claim in the `verify_token_type` error
message (Python f-string prints `None` for a missing claim). -/
def typeClaimStr : Option String → String
  | none => "None"
  | some s => s

/-- Embedding of `verify_token_type` (`core/utils.py` lines 170-190):
decode with full validation, then fail `InvalidTokenError` when the
`type` claim differs from the expected one. -/
def verify_token_type (now : Nat) (t : Token) (expected : String) :
    Except JwtError TokenPayload :=
  match decode_token now t with
  | .error e => .error e
  | .ok p =>
    if p.typ ≠ some expected then
      .error (.invalidToken
        ("Expected " ++ expected ++ " token, got " ++ typeClaimStr p.typ))
    else
      .ok p

/-- Embedding of `generate_access_token` (`core/utils.py` lines 31-62)
at issue time `iat` with the configured access TTL; no caller in the
repository passes `extra_claims`, so that parameter is omitted.  The
fresh `jti` drawn from `uuid4()` is a parameter. -/
def generate_access_token (jti : String) (user_id tenant_id : Nat)
    (iat ttl : Nat) : Token :=
  .signed ⟨some jti, some user_id, some tenant_id, some "access", iat, some (iat + ttl)⟩

/-- Embedding of `generate_refresh_token` (`core/utils.py` lines 65-94). -/
def generate_refresh_token (jti : String) (user_id tenant_id : Nat)
    (iat ttl : Nat) : Token :=
  .signed ⟨some jti, some user_id, some tenant_id, some "refresh", iat, some (iat + ttl)⟩

/-- Embedding of `BlacklistedToken.is_blacklisted` (`auth/models.py`
lines 44-49): existence check on the `jti` column. -/
def is_blacklisted (db : Db) (jti : String) : Bool :=
  db.blacklisted_tokens.any (fun b => decide (b.jti = jti))

/-- Embedding of `BlacklistedToken.blacklist_token` (`auth/models.py`
lines 51-69): inserts a blacklist row. -/
def blacklist_token (db : Db) (jti : String) (user_id : Nat)
    (token_type : String) (expires_at : Nat) (reason : Option String) : Db :=
  { db with blacklisted_tokens :=
      db.blacklisted_tokens ++ [⟨jti, user_id, token_type, expires_at, reason⟩] }

/-- Embedding of `UserTokenRevocation.get_revocation_time`
(`auth/models.py` lines 101-105). -/
def get_revocation_time (db : Db) (user_id : Nat) : Option Nat :=
  (db.user_token_revocations.find? (fun r => decide (r.user_id = user_id))).map
    (fun r => r.revoked_at)

/-- Embedding of `UserTokenRevocation.revoke_all_tokens`
(`auth/models.py` lines 107-122): update the user's row to
`revoked_at = now` when one exists (unique per user), insert a fresh
row otherwise. -/
def revoke_all_tokens (now : Nat) (db : Db) (user_id : Nat) : Db :=
  match db.user_token_revocations.find? (fun r => decide (r.user_id = user_id)) with
  | some _ =>
    let updated := db.user_token_revocations.map
      (fun r => if r.user_id = user_id then { r with revoked_at := now } else r)
    { db with user_token_revocations := updated }
  | none =>
    { db with user_token_revocations := db.user_token_revocations ++ [⟨user_id, now⟩] }

/-- Errors of `core/exceptions.py` reachable from the embedded flows,
carrying the message the exception constructor would set. -/
inductive ApiError where
  | unauthorized (msg : String)
  | tokenExpired (msg : String)
  | invalidToken (msg : String)
  | forbidden (msg : String)
  | insufficientPermissions (msg : String)
  | userNotFound
  | userInactive
  | tenantNotFound (msg : String)
  | tenantSuspended
  | tenantAccessDenied
deriving DecidableEq, Repr

/-- Resolved request identity: the `(user, tenant, tenant_user)` triple
returned by `load_user_and_tenant` and stored on `g`. -/
structure AuthContext where
  user : UserRow
  tenant : TenantRow
  tenant_user : TenantUserRow
deriving DecidableEq, Repr

/-- Embedding of `load_user_and_tenant` (`core/middleware.py` lines
55-105): load the user (absent → `UserNotFoundError`, inactive →
`UserInactiveError`), load the tenant (absent → `TenantNotFoundError`,
soft-deleted → `TenantNotFoundError("Tenant has been deleted")`,
status suspended → `TenantSuspendedError`), then require a
`TenantUser` membership row (absent → `TenantAccessDeniedError`). -/
def load_user_and_tenant (db : Db) (user_id tenant_id : Nat) :
    Except ApiError AuthContext :=
  match db.findUser user_id with
  | none => .error .userNotFound
  | some user =>
    if user.is_active = false then .error .userInactive
    else
      match db.findTenant tenant_id with
      | none => .error (.tenantNotFound "Tenant not found")
      | some tenant =>
        if tenant.is_deleted then .error (.tenantNotFound "Tenant has been deleted")
        else if tenant.status = .suspended then .error .tenantSuspended
        else
          match db.tenant_users.find?
              (fun m => decide (m.user_id = user.id ∧ m.tenant_id = tenant.id)) with
          | none => .error .tenantAccessDenied
          | some m => .ok ⟨user, tenant, m⟩

/-- Embedding of `TenantMiddleware.before_request` (`core/middleware.py`
lines 205-253) on a non-exempt path, from token extraction onward:
`none` models a missing or malformed `Authorization` header.  JWT
exceptions are re-raised as `TokenExpiredError()` (default message) and
`InvalidTokenError(str(e))`; a non-`access` `type` claim and missing
`user_id`/`tenant_id` claims are rejected before the database is
consulted. -/
def before_request (now : Nat) (db : Db) (token? : Option Token) :
    Except ApiError AuthContext :=
  match token? with
  | none => .error (.unauthorized "Missing authorization header")
  | some tok =>
    match decode_token now tok with
    | .error (.tokenExpired _) => .error (.tokenExpired "Token has expired")
    | .error (.invalidToken m) => .error (.invalidToken m)
    | .ok payload =>
      if payload.typ ≠ some "access" then .error (.invalidToken "Invalid token type")
      else
        match payload.user_id, payload.tenant_id with
        | some uid, some tid => load_user_and_tenant db uid tid
        | none, _ => .error (.invalidToken "Token missing required claims")
        | _, none => .error (.invalidToken "Token missing required claims")

/-- Tenant-wide part of the role query in `get_user_permissions`
(`core/decorators.py` lines 166-170): role ids of the user's
assignments in the tenant with `store_id IS NULL`. -/
def tenantWideRoleIds (db : Db) (user_id tenant_id : Nat) : List Nat :=
  (db.user_roles.filter (fun r =>
      decide (r.user_id = user_id ∧ r.tenant_id = tenant_id ∧ r.store_id = none))).map
    (fun r => r.role_id)

/-- Store-scoped part of the role query in `get_user_permissions`
(`core/decorators.py` lines 173-179). -/
def storeRoleIds (db : Db) (user_id tenant_id sid : Nat) : List Nat :=
  (db.user_roles.filter (fun r =>
      decide (r.user_id = user_id ∧ r.tenant_id = tenant_id ∧ r.store_id = some sid))).map
    (fun r => r.role_id)

/-- Permission-name join of `get_user_permissions` (`core/decorators.py`
lines 182-194): short-circuit to the empty set on no roles, otherwise
the names reachable from the role ids through `role_permissions`. -/
def rolePermissionNames (db : Db) (role_ids : List Nat) : List String :=
  if role_ids.isEmpty then []
  else
    (db.permissions.filter (fun p =>
        db.role_permissions.any (fun rp =>
          decide (rp.permission_id = p.id ∧ rp.role_id ∈ role_ids)))).map
      (fun p => p.name)

/-- Embedding of `get_user_permissions` (`core/decorators.py` lines
146-194): union of tenant-wide role ids with the store-scoped ones when
a store id is supplied, then the permission names of those roles.  The
result is a list read up to membership (the Python function returns a
set). -/
def get_user_permissions (db : Db) (user_id tenant_id : Nat)
    (store_id : Option Nat) : List String :=
  rolePermissionNames db
    (match store_id with
     | none => tenantWideRoleIds db user_id tenant_id
     | some sid => tenantWideRoleIds db user_id tenant_id ++ storeRoleIds db user_id tenant_id sid)

/-- Request context the permission guard reads from `g`: optional user,
optional tenant, optional store id. -/
structure ReqCtx where
  user : Option UserRow
  tenant : Option TenantRow
  store : Option Nat
deriving Repr

/-- Embedding of the `require_permission` guard (`core/decorators.py`
lines 79-143): fail `UnauthorizedError()` with no user in context, then
`ForbiddenError("Tenant context required")` with no tenant, then compute
the effective permission set once and test membership — `require_all`
lists every missing permission, the any-mode names the required
permission exactly when a single one was requested. -/
def require_permission (db : Db) (ctx : ReqCtx) (perms : List String)
    (require_all : Bool) : Except ApiError Unit :=
  match ctx.user with
  | none => .error (.unauthorized "Authentication required")
  | some u =>
    match ctx.tenant with
    | none => .error (.forbidden "Tenant context required")
    | some t =>
      let user_permissions := get_user_permissions db u.id t.id ctx.store
      if require_all then
        let missing := perms.filter (fun p => decide (p ∉ user_permissions))
        if missing.isEmpty = false then
          .error (.insufficientPermissions
            ("Missing required permissions: " ++ String.intercalate ", " missing))
        else .ok ()
      else
        if perms.any (fun p => decide (p ∈ user_permissions)) then .ok ()
        else
          .error (.insufficientPermissions
            (if perms.length = 1 then
               "Missing required permission: " ++ perms.headD ""
             else "Insufficient permissions"))

/-- Embedding of `AuthService.refresh_token` (`auth/services.py` lines
240-292): verify the token is a valid, unexpired `refresh` token,
require the `user_id`/`tenant_id` claims, re-validate user (exists,
active), tenant (exists, not soft-deleted) and membership, then issue a
fresh token pair.  Token issuance draws fresh `jti`s and timestamps, so
the success value is abstracted to the `(user_id, tenant_id)` pair the
new tokens are generated for. -/
def refresh_token (now : Nat) (db : Db) (t : Token) : Except ApiError (Nat × Nat) :=
  match verify_token_type now t "refresh" with
  | .error (.tokenExpired _) => .error (.tokenExpired "Refresh token has expired")
  | .error (.invalidToken m) => .error (.invalidToken m)
  | .ok payload =>
    match payload.user_id, payload.tenant_id with
    | some uid, some tid =>
      (match db.findUser uid with
       | none => .error (.invalidToken "User no longer valid")
       | some user =>
         if user.is_active = false then .error (.invalidToken "User no longer valid")
         else
           match db.findTenant tid with
           | none => .error (.invalidToken "Tenant no longer valid")
           | some tenant =>
             if tenant.is_deleted then .error (.invalidToken "Tenant no longer valid")
             else
               match db.tenant_users.find?
                   (fun m => decide (m.user_id = user.id ∧ m.tenant_id = tenant.id)) with
               | none => .error (.invalidToken "User no longer member of tenant")
               | some _ => .ok (user.id, tenant.id))
    | none, _ => .error (.invalidToken "Token missing required claims")
    | _, none => .error (.invalidToken "Token missing required claims")

/-- Embedding of `AuthService.logout` (`auth/services.py` lines
335-385): read the claims with `get_token_payload` (expiry ignored), and
when the `jti` claim is falsy (absent or empty) return success without
touching the blacklist; otherwise require `user_id` and insert a
blacklist row with reason `"logout"`, the token's type (default
`"access"`) and its expiry (defaulting to now when absent). -/
def logout (now : Nat) (db : Db) (t : Token) : Except ApiError (Db × String) :=
  match get_token_payload t with
  | .error (.invalidToken m) => .error (.invalidToken m)
  | .error (.tokenExpired m) => .error (.tokenExpired m)
  | .ok payload =>
    if payload.jti.getD "" = "" then .ok (db, "Logged out successfully")
    else
      match payload.user_id with
      | none => .error (.invalidToken "Token missing user_id claim")
      | some uid =>
        .ok (blacklist_token db (payload.jti.getD "") uid (payload.typ.getD "access")
              (payload.exp.getD now) (some "logout"),
             "Logged out successfully")

/-- Embedding of `PasswordResetToken.is_valid` (`auth/models.py` lines
148-161): neither expired (`now > expires_at`) nor already used. -/
def PasswordResetTokenRow.is_valid (now : Nat) (r : PasswordResetTokenRow) : Bool :=
  !(decide (r.expires_at < now)) && r.used_at.isNone

/-- Embedding of `PasswordResetToken.get_valid_token` (`auth/models.py`
lines 193-210): look the token up by value and return it only when
still valid. -/
def get_valid_token (now : Nat) (db : Db) (token : String) :
    Option PasswordResetTokenRow :=
  match db.password_reset_tokens.find? (fun r => decide (r.token = token)) with
  | some r => if r.is_valid now then some r else none
  | none => none

/-- Modelled from the external werkzeug `generate_password_hash` used by
`User.set_password`: an injective tagging of the plaintext — the claims
only rely on the stored hash being replaced. -/
def hashPassword (pw : String) : String := "pbkdf2:" ++ pw

/-- Embedding of `AuthService.reset_password` (`auth/services.py` lines
456-494): validate the reset token, load the user (must exist and be
active), update the password hash, mark the token used, and revoke all
of the user's tokens.  Row updates are keyed by the unique id / token
value, matching the ORM mutation of the fetched rows. -/
def reset_password (now : Nat) (db : Db) (token new_password : String) :
    Except ApiError (Db × String) :=
  match get_valid_token now db token with
  | none => .error (.invalidToken "Invalid or expired password reset token")
  | some rt =>
    match db.findUser rt.user_id with
    | none => .error (.invalidToken "Invalid or expired password reset token")
    | some u =>
      if u.is_active = false then
        .error (.invalidToken "Invalid or expired password reset token")
      else
        let users' := db.users.map
          (fun w => if w.id = rt.user_id then { w with password_hash := hashPassword new_password } else w)
        let tokens' := db.password_reset_tokens.map
          (fun w => if w.token = token then { w with used_at := some now } else w)
        let db1 := { db with users := users', password_reset_tokens := tokens' }
        .ok (revoke_all_tokens now db1 rt.user_id, "Password has been reset successfully")

/-- Observer: whether a flow's outcome is an `InvalidTokenError`
(of any message). -/
def isInvalidTokenError {α : Type} : Except ApiError α → Bool
  | .error (.invalidToken _) => true
  | _ => false

/-- Concrete state: active user 1, active tenant 1 of which the user is
a member, the refresh token's `jti` blacklisted (reason `"logout"`) and
a user-wide revocation at time 100. -/
def exampleRevokedDb : Db :=
  ⟨[⟨1, true, "h"⟩], [⟨1, .active, none⟩], [⟨1, 1⟩], [], [], [],
   [⟨"j1", 1, "refresh", 1000, some "logout"⟩], [⟨1, 100⟩], []⟩

/-- A refresh-token payload issued at 50 (before the user-wide
revocation at 100) whose `jti` is the blacklisted `"j1"`. -/
def exampleRevokedPayload : TokenPayload :=
  ⟨some "j1", some 1, some 1, some "refresh", 50, some 1000⟩

/-- Concrete state: active user 1, member of tenant 2 whose status is
`canceled` but whose soft-delete timestamp is unset. -/
def exampleCanceledDb : Db :=
  ⟨[⟨1, true, "h"⟩], [⟨2, .canceled, none⟩], [⟨1, 2⟩], [], [], [], [], [], []⟩

/-- Concrete RBAC state: user 1 holds role 10 in tenant 2 scoped to
store 3; role 10 grants permission 20 named `stores.edit`. -/
def exampleStoreScopedDb : Db :=
  ⟨[], [], [], [⟨1, 10, 2, some 3⟩], [⟨10, 20⟩], [⟨20, "stores.edit"⟩], [], [], []⟩

/-- Concrete RBAC state: user 1 holds role 10 in tenant 2 tenant-wide
(`store_id = none`); role 10 grants permission 20 named `users.create`. -/
def exampleTenantWideDb : Db :=
  ⟨[], [], [], [⟨1, 10, 2, none⟩], [⟨10, 20⟩], [⟨20, "users.create"⟩], [], [], []⟩

/-- Concrete state for the password-reset flow: active user 1 and an
unused reset token `"tk"` expiring at 100. -/
def exampleResetDb : Db :=
  ⟨[⟨1, true, "old"⟩], [], [], [], [], [], [], [], [⟨"tk", 1, 100, none⟩]⟩

/-- The state `reset_password` produces from `exampleResetDb` at time 50
with token `"tk"` and new password `"npw"`. -/
def exampleResetDbAfter : Db :=
  match reset_password 50 exampleResetDb "tk" "npw" with
  | .ok r => r.1
  | .error _ => exampleResetDb

/-- C1: the refresh-token exchange is claimed to reject a token whose
`jti` is blacklisted or whose `iat` predates the user's `revoked_at`;
in the code `AuthService.refresh_token` consults neither mechanism, so
a token that is blacklisted AND issued before `revoked_at` is still
exchanged successfully for a fresh token pair. -/
theorem c1_refresh_exchange_ignores_revocation :
    is_blacklisted exampleRevokedDb "j1" = true ∧
    get_revocation_time exampleRevokedDb 1 = some 100 ∧
    exampleRevokedPayload.iat < 100 ∧
    refresh_token 500 exampleRevokedDb (.signed exampleRevokedPayload) = .ok (1, 1) :=
  ⟨rfl, rfl, by decide, rfl⟩

/-- C3 counterexample: for an active user who is a member of a tenant
whose status is `canceled` (soft-delete timestamp unset), identity
resolution succeeds — the claimed denial for canceled tenants does not
happen. -/
theorem c3_canceled_tenant_not_denied :
    exampleCanceledDb.tenants = [⟨2, .canceled, none⟩] ∧
    load_user_and_tenant exampleCanceledDb 1 2 =
      .ok ⟨⟨1, true, "h"⟩, ⟨2, .canceled, none⟩, ⟨1, 2⟩⟩ :=
  ⟨rfl, rfl⟩

/-- C6: `decode_token` fails `TokenExpired` exactly when the signature
is valid and the `exp` claim is in the past; every other failure is
`InvalidToken` (structural or signature failure); when neither failure
applies it returns the claim payload. -/
theorem c6_decode_token_behavior :
    ∀ (now : Nat) (t : Token),
      (decode_token now t = .error (.tokenExpired "Token has expired") ↔
        ∃ p e, t = .signed p ∧ p.exp = some e ∧ e < now)
    ∧ (∀ r, t = .malformed r →
        decode_token now t = .error (.invalidToken ("Invalid token: " ++ r)))
    ∧ (∀ m, decode_token now t = .error (.invalidToken m) →
        ∃ r, t = .malformed r ∧ m = "Invalid token: " ++ r)
    ∧ (∀ p, t = .signed p → (∀ e, p.exp = some e → ¬ e < now) →
        decode_token now t = .ok p) := by
  intro now t
  refine ⟨?_, ?_, ?_, ?_⟩
  · cases t with
    | malformed r => simp [decode_token]
    | signed p =>
      cases hexp : p.exp with
      | none => simp [decode_token, hexp]
      | some e =>
        by_cases hlt : e < now
        · simp only [decode_token, hexp, if_pos hlt]
          constructor
          · intro _; exact ⟨p, e, rfl, hexp, hlt⟩
          · intro _; trivial
        · simp only [decode_token, hexp, if_neg hlt]
          constructor
          · intro h; cases h
          · rintro ⟨p', e', hp', hexp', hlt'⟩
            cases hp'
            rw [hexp] at hexp'
            cases hexp'
            exact absurd hlt' hlt
  · intro r hr; subst hr; rfl
  · intro m hm
    cases t with
    | malformed r =>
      refine ⟨r, rfl, ?_⟩
      simp [decode_token] at hm
      exact hm.symm
    | signed p =>
      exfalso
      cases hexp : p.exp with
      | none => simp [decode_token, hexp] at hm
      | some e =>
        by_cases hlt : e < now
        · simp [decode_token, hexp, hlt] at hm
        · simp [decode_token, hexp, hlt] at hm
  · intro p hp hfresh
    subst hp
    cases hexp : p.exp with
    | none => simp [decode_token, hexp]
    | some e => simp [decode_token, hexp, hfresh e hexp]

/-- C6 witness: at time 10, a correctly signed token with `exp = 5` is
rejected as expired, and the same payload with `exp = 20` decodes to
its payload. -/
theorem c6_decode_token_behavior_witness :
    decode_token 10 (.signed ⟨some "j", some 1, some 1, some "access", 0, some 5⟩) =
      .error (.tokenExpired "Token has expired") ∧
    decode_token 10 (.signed ⟨some "j", some 1, some 1, some "access", 0, some 20⟩) =
      .ok ⟨some "j", some 1, some 1, some "access", 0, some 20⟩ ∧
    decode_token 10 (.malformed "bad signature") =
      .error (.invalidToken ("Invalid token: " ++ "bad signature")) :=
  ⟨(c6_decode_token_behavior 10 _).1.mpr ⟨_, 5, rfl, rfl, by decide⟩,
   (c6_decode_token_behavior 10 _).2.2.2 _ rfl (by decide),
   (c6_decode_token_behavior 10 _).2.1 "bad signature" rfl⟩

/-- C7: `get_token_payload` performs the same validation as
`decode_token` minus the expiry check — it agrees with `decode_token`
on every success, succeeds on any correctly signed token regardless of
`exp`, and still fails `InvalidToken` on every structural or signature
failure. -/
theorem c7_get_token_payload_behavior :
    ∀ t : Token,
      (∀ r, t = .malformed r →
        get_token_payload t = .error (.invalidToken ("Invalid token: " ++ r)))
    ∧ (∀ p, t = .signed p → get_token_payload t = .ok p)
    ∧ (∀ now p, decode_token now t = .ok p → get_token_payload t = .ok p) := by
  intro t
  refine ⟨?_, ?_, ?_⟩
  · intro r hr; subst hr; rfl
  · intro p hp; subst hp; rfl
  · intro now p h
    cases t with
    | malformed r => simp [decode_token] at h
    | signed q =>
      cases hexp : q.exp with
      | none =>
        simp [decode_token, hexp] at h
        subst h; rfl
      | some e =>
        by_cases hlt : e < now
        · simp [decode_token, hexp, hlt] at h
        · simp [decode_token, hexp, hlt] at h
          subst h; rfl

/-- C7 witness: an expired but correctly signed token (time 10,
`exp = 5`) yields its payload, and a malformed token is rejected. -/
theorem c7_get_token_payload_behavior_witness :
    get_token_payload (.signed ⟨some "j", some 1, some 1, some "access", 0, some 5⟩) =
      .ok ⟨some "j", some 1, some 1, some "access", 0, some 5⟩ ∧
    get_token_payload (.malformed "tampered") =
      .error (.invalidToken ("Invalid token: " ++ "tampered")) :=
  ⟨(c7_get_token_payload_behavior _).2.1 _ rfl,
   (c7_get_token_payload_behavior _).1 "tampered" rfl⟩

/-- C9: logging out with a token that decodes under the signing key but
carries no `jti` claim returns the success message and leaves the
database — in particular the blacklist table — unchanged. -/
theorem c9_logout_without_jti_is_noop (now : Nat) (db : Db) (p : TokenPayload)
    (h : p.jti = none) :
    logout now db (.signed p) = .ok (db, "Logged out successfully") := by
  simp [logout, get_token_payload, h]

/-- C3 amended: for a syntactically valid token of an active member,
identity resolution rejects with `TenantSuspended` when the tenant's
status is `suspended`; a `canceled` tenant is not rejected for its
status — it is rejected (as `TenantNotFound`) only when its soft-delete
timestamp is set. -/
theorem c3_suspended_denied_deleted_not_found :
    (∀ (db : Db) (uid tid : Nat) (u : UserRow) (ten : TenantRow),
        db.findUser uid = some u → u.is_active = true →
        db.findTenant tid = some ten → ten.deleted_at = none →
        ten.status = .suspended →
        load_user_and_tenant db uid tid = .error .tenantSuspended)
  ∧ (∀ (db : Db) (uid tid : Nat) (u : UserRow) (ten : TenantRow) (d : Nat),
        db.findUser uid = some u → u.is_active = true →
        db.findTenant tid = some ten → ten.deleted_at = some d →
        load_user_and_tenant db uid tid =
          .error (.tenantNotFound "Tenant has been deleted")) := by
  constructor
  · intro db uid tid u ten hu hact ht hdel hst
    simp [load_user_and_tenant, hu, hact, ht, TenantRow.is_deleted, hdel, hst]
  · intro db uid tid u ten d hu hact ht hdel
    simp [load_user_and_tenant, hu, hact, ht, TenantRow.is_deleted, hdel]

/-- C3 amended witness: in a state with an active member of a suspended
tenant, resolution rejects with `TenantSuspended`; with the tenant
soft-deleted at 7 (status canceled), it rejects with `TenantNotFound`. -/
theorem c3_suspended_denied_deleted_not_found_witness :
    load_user_and_tenant ⟨[⟨1, true, "h"⟩], [⟨2, .suspended, none⟩], [⟨1, 2⟩],
        [], [], [], [], [], []⟩ 1 2 = .error .tenantSuspended ∧
    load_user_and_tenant ⟨[⟨1, true, "h"⟩], [⟨2, .canceled, some 7⟩], [⟨1, 2⟩],
        [], [], [], [], [], []⟩ 1 2 =
      .error (.tenantNotFound "Tenant has been deleted") :=
  ⟨c3_suspended_denied_deleted_not_found.1 _ 1 2 ⟨1, true, "h"⟩ ⟨2, .suspended, none⟩
      rfl rfl rfl rfl rfl,
   c3_suspended_denied_deleted_not_found.2 _ 1 2 ⟨1, true, "h"⟩ ⟨2, .canceled, some 7⟩ 7
      rfl rfl rfl rfl⟩

/-- C4 counterexample: an EXPIRED refresh token (issued at 0 with TTL
100, presented at time 500) fails request authentication with
`TokenExpired`, not `InvalidToken` — the expiry check of `decode_token`
runs before the type check — and likewise an expired access token fails
the refresh exchange with `TokenExpired`; so "fails with InvalidToken"
does not hold for every refresh/access token. -/
theorem c4_expired_token_fails_with_token_expired :
    before_request 500 exampleRevokedDb (some (generate_refresh_token "j" 1 1 0 100)) =
      .error (.tokenExpired "Token has expired") ∧
    isInvalidTokenError
      (before_request 500 exampleRevokedDb (some (generate_refresh_token "j" 1 1 0 100))) =
      false ∧
    refresh_token 500 exampleRevokedDb (generate_access_token "j" 1 1 0 100) =
      .error (.tokenExpired "Refresh token has expired") ∧
    isInvalidTokenError
      (refresh_token 500 exampleRevokedDb (generate_access_token "j" 1 1 0 100)) =
      false :=
  ⟨rfl, rfl, rfl, rfl⟩

/-- C4 amended: an issued, UNEXPIRED refresh token presented where an
access token is required (request authentication) fails with
`InvalidToken`, and an issued, unexpired access token presented to the
refresh exchange (which verifies type `refresh`) fails with
`InvalidToken`; expired tokens fail earlier with `TokenExpired`. -/
theorem c4_token_type_isolation :
    (∀ (now : Nat) (db : Db) (jti : String) (uid tid iat ttl : Nat),
        ¬ iat + ttl < now →
        before_request now db (some (generate_refresh_token jti uid tid iat ttl)) =
          .error (.invalidToken "Invalid token type"))
  ∧ (∀ (now : Nat) (db : Db) (jti : String) (uid tid iat ttl : Nat),
        ¬ iat + ttl < now →
        refresh_token now db (generate_access_token jti uid tid iat ttl) =
          .error (.invalidToken "Expected refresh token, got access")) := by
  constructor
  · intro now db jti uid tid iat ttl h
    simp [before_request, generate_refresh_token, decode_token, h]
  · intro now db jti uid tid iat ttl h
    simp [refresh_token, verify_token_type, generate_access_token, decode_token, h,
      typeClaimStr]

/-- C4 witness: at time 5, a refresh token issued at 0 with TTL 100 is
rejected by request authentication, and the corresponding access token
is rejected by the refresh exchange. -/
theorem c4_token_type_isolation_witness :
    before_request 5 exampleRevokedDb (some (generate_refresh_token "j" 1 1 0 100)) =
      .error (.invalidToken "Invalid token type") ∧
    refresh_token 5 exampleRevokedDb (generate_access_token "j" 1 1 0 100) =
      .error (.invalidToken "Expected refresh token, got access") :=
  ⟨c4_token_type_isolation.1 5 exampleRevokedDb "j" 1 1 0 100 (by decide),
   c4_token_type_isolation.2 5 exampleRevokedDb "j" 1 1 0 100 (by decide)⟩

/-- C5: the permission guard fails `Unauthorized` with no user in
context (for any tenant/store/database — so before any permission
computation), fails `Forbidden` with no tenant in context, and
otherwise tests the requested permissions against the aggregated set:
require-all succeeds iff every permission is present, require-any
succeeds iff some permission is present, a failing single-permission
check names the missing permission, and the only possible failure with
both contexts present is `InsufficientPermissions`. -/
theorem c5_permission_guard :
    (∀ (db : Db) (t? : Option TenantRow) (s : Option Nat) (perms : List String)
        (ra : Bool),
        require_permission db ⟨none, t?, s⟩ perms ra =
          .error (.unauthorized "Authentication required"))
  ∧ (∀ (db : Db) (u : UserRow) (s : Option Nat) (perms : List String) (ra : Bool),
        require_permission db ⟨some u, none, s⟩ perms ra =
          .error (.forbidden "Tenant context required"))
  ∧ (∀ (db : Db) (u : UserRow) (t : TenantRow) (s : Option Nat) (perms : List String),
        require_permission db ⟨some u, some t, s⟩ perms true = .ok () ↔
          ∀ p ∈ perms, p ∈ get_user_permissions db u.id t.id s)
  ∧ (∀ (db : Db) (u : UserRow) (t : TenantRow) (s : Option Nat) (perms : List String),
        require_permission db ⟨some u, some t, s⟩ perms false = .ok () ↔
          ∃ p ∈ perms, p ∈ get_user_permissions db u.id t.id s)
  ∧ (∀ (db : Db) (u : UserRow) (t : TenantRow) (s : Option Nat) (p : String),
        p ∉ get_user_permissions db u.id t.id s →
        require_permission db ⟨some u, some t, s⟩ [p] false =
          .error (.insufficientPermissions ("Missing required permission: " ++ p)))
  ∧ (∀ (db : Db) (u : UserRow) (t : TenantRow) (s : Option Nat) (perms : List String)
        (ra : Bool),
        require_permission db ⟨some u, some t, s⟩ perms ra = .ok () ∨
        ∃ m, require_permission db ⟨some u, some t, s⟩ perms ra =
          .error (.insufficientPermissions m)) := by
  refine ⟨fun _ _ _ _ _ => rfl, fun _ _ _ _ _ => rfl, ?_, ?_, ?_, ?_⟩
  · intro db u t s perms
    have hunfold : require_permission db ⟨some u, some t, s⟩ perms true =
        (if (perms.filter
              (fun p => decide (p ∉ get_user_permissions db u.id t.id s))).isEmpty = false
         then .error (.insufficientPermissions ("Missing required permissions: " ++
                String.intercalate ", " (perms.filter
                  (fun p => decide (p ∉ get_user_permissions db u.id t.id s)))))
         else .ok ()) := rfl
    rw [hunfold]
    cases hmiss : (perms.filter
        (fun p => decide (p ∉ get_user_permissions db u.id t.id s))).isEmpty with
    | false =>
      rw [if_pos rfl]
      constructor
      · intro h; exact Except.noConfusion h
      · intro hall
        exfalso
        have hnil : perms.filter
            (fun p => decide (p ∉ get_user_permissions db u.id t.id s)) = [] :=
          List.filter_eq_nil_iff.mpr (fun a ha => by
            simp only [decide_eq_true_eq]
            exact fun hn => hn (hall a ha))
        rw [hnil] at hmiss
        simp at hmiss
    | true =>
      rw [if_neg (by simp)]
      rw [List.isEmpty_iff, List.filter_eq_nil_iff] at hmiss
      constructor
      · intro _ p hp
        have := hmiss p hp
        simp only [decide_eq_true_eq] at this
        exact not_not.mp this
      · intro _; rfl
  · intro db u t s perms
    have hunfold : require_permission db ⟨some u, some t, s⟩ perms false =
        (if perms.any (fun p => decide (p ∈ get_user_permissions db u.id t.id s))
         then .ok ()
         else .error (.insufficientPermissions
            (if perms.length = 1 then "Missing required permission: " ++ perms.headD ""
             else "Insufficient permissions"))) := rfl
    rw [hunfold]
    cases hany : perms.any
        (fun p => decide (p ∈ get_user_permissions db u.id t.id s)) with
    | false =>
      rw [if_neg (by simp)]
      constructor
      · intro h; exact Except.noConfusion h
      · rintro ⟨p, hp, hmem⟩
        exfalso
        have htrue : perms.any
            (fun p => decide (p ∈ get_user_permissions db u.id t.id s)) = true :=
          List.any_eq_true.mpr ⟨p, hp, by simpa using hmem⟩
        rw [hany] at htrue
        cases htrue
    | true =>
      rw [if_pos rfl]
      rw [List.any_eq_true] at hany
      obtain ⟨p, hp, hmem⟩ := hany
      simp only [decide_eq_true_eq] at hmem
      exact ⟨fun _ => ⟨p, hp, hmem⟩, fun _ => rfl⟩
  · intro db u t s p hnot
    simp [require_permission, hnot]
  · intro db u t s perms ra
    cases ra with
    | true =>
      have hunfold : require_permission db ⟨some u, some t, s⟩ perms true =
          (if (perms.filter
                (fun p => decide (p ∉ get_user_permissions db u.id t.id s))).isEmpty = false
           then .error (.insufficientPermissions ("Missing required permissions: " ++
                  String.intercalate ", " (perms.filter
                    (fun p => decide (p ∉ get_user_permissions db u.id t.id s)))))
           else .ok ()) := rfl
      rw [hunfold]
      by_cases hc : (perms.filter
          (fun p => decide (p ∉ get_user_permissions db u.id t.id s))).isEmpty = false
      · rw [if_pos hc]
        exact Or.inr ⟨_, rfl⟩
      · rw [if_neg hc]
        exact Or.inl rfl
    | false =>
      have hunfold : require_permission db ⟨some u, some t, s⟩ perms false =
          (if perms.any (fun p => decide (p ∈ get_user_permissions db u.id t.id s))
           then .ok ()
           else .error (.insufficientPermissions
              (if perms.length = 1 then "Missing required permission: " ++ perms.headD ""
               else "Insufficient permissions"))) := rfl
      rw [hunfold]
      by_cases hc : perms.any
          (fun p => decide (p ∈ get_user_permissions db u.id t.id s)) = true
      · rw [if_pos hc]
        exact Or.inl rfl
      · rw [if_neg hc]
        exact Or.inr ⟨_, rfl⟩

/-- C5 witness: with no user the guard is unauthorized; with a user but
no tenant it is forbidden; with the store-3 context of
`exampleStoreScopedDb` a require-all check for `stores.edit` passes, a
require-any check passes, and without store context the single-permission
check fails naming `stores.edit`. -/
theorem c5_permission_guard_witness :
    require_permission exampleStoreScopedDb ⟨none, none, none⟩ ["stores.edit"] false =
      .error (.unauthorized "Authentication required") ∧
    require_permission exampleStoreScopedDb ⟨some ⟨1, true, "h"⟩, none, none⟩
        ["stores.edit"] false = .error (.forbidden "Tenant context required") ∧
    require_permission exampleStoreScopedDb ⟨some ⟨1, true, "h"⟩, some ⟨2, .active, none⟩,
        some 3⟩ ["stores.edit"] true = .ok () ∧
    require_permission exampleStoreScopedDb ⟨some ⟨1, true, "h"⟩, some ⟨2, .active, none⟩,
        some 3⟩ ["stores.edit"] false = .ok () ∧
    require_permission exampleStoreScopedDb ⟨some ⟨1, true, "h"⟩, some ⟨2, .active, none⟩,
        none⟩ ["stores.edit"] false =
      .error (.insufficientPermissions ("Missing required permission: " ++ "stores.edit")) :=
  ⟨c5_permission_guard.1 exampleStoreScopedDb none none ["stores.edit"] false,
   c5_permission_guard.2.1 exampleStoreScopedDb ⟨1, true, "h"⟩ none ["stores.edit"] false,
   (c5_permission_guard.2.2.1 exampleStoreScopedDb ⟨1, true, "h"⟩ ⟨2, .active, none⟩
      (some 3) ["stores.edit"]).mpr (by decide),
   (c5_permission_guard.2.2.2.1 exampleStoreScopedDb ⟨1, true, "h"⟩ ⟨2, .active, none⟩
      (some 3) ["stores.edit"]).mpr (by decide),
   c5_permission_guard.2.2.2.2.1 exampleStoreScopedDb ⟨1, true, "h"⟩ ⟨2, .active, none⟩
      none "stores.edit" (by decide)⟩

/-- Helper: a permission name reachable from a role id in the role-id
set is in the permission-name join. -/
theorem mem_rolePermissionNames {db : Db} {role_ids : List Nat} {rid pid : Nat}
    {pname : String}
    (hr : rid ∈ role_ids)
    (hrp : (⟨rid, pid⟩ : RolePermissionRow) ∈ db.role_permissions)
    (hp : (⟨pid, pname⟩ : PermissionRow) ∈ db.permissions) :
    pname ∈ rolePermissionNames db role_ids := by
  have hne : role_ids.isEmpty = false := by
    cases role_ids with
    | nil => cases hr
    | cons a l => rfl
  unfold rolePermissionNames
  rw [hne, if_neg Bool.false_ne_true]
  rw [List.mem_map]
  refine ⟨⟨pid, pname⟩, ?_, rfl⟩
  rw [List.mem_filter]
  refine ⟨hp, ?_⟩
  rw [List.any_eq_true]
  exact ⟨⟨rid, pid⟩, hrp, by simp [hr]⟩

/-- Helper: a tenant-wide assignment row contributes its role id to the
tenant-wide role-id query. -/
theorem mem_tenantWideRoleIds {db : Db} {u t R : Nat}
    (hmem : (⟨u, R, t, none⟩ : UserRoleRow) ∈ db.user_roles) :
    R ∈ tenantWideRoleIds db u t := by
  unfold tenantWideRoleIds
  rw [List.mem_map]
  exact ⟨⟨u, R, t, none⟩, List.mem_filter.mpr ⟨hmem, by simp⟩, rfl⟩

/-- Helper: a store-scoped assignment row contributes its role id to
the matching store role-id query. -/
theorem mem_storeRoleIds {db : Db} {u t R A : Nat}
    (hmem : (⟨u, R, t, some A⟩ : UserRoleRow) ∈ db.user_roles) :
    R ∈ storeRoleIds db u t A := by
  unfold storeRoleIds
  rw [List.mem_map]
  exact ⟨⟨u, R, t, some A⟩, List.mem_filter.mpr ⟨hmem, by simp⟩, rfl⟩

/-- Helper: when every assignment of the user in the tenant is scoped
to store `A`, the tenant-wide role-id query is empty. -/
theorem tenantWideRoleIds_eq_nil {db : Db} {u t A : Nat}
    (hscope : ∀ r ∈ db.user_roles, r.user_id = u → r.tenant_id = t →
        r.store_id = some A) :
    tenantWideRoleIds db u t = [] := by
  unfold tenantWideRoleIds
  rw [List.map_eq_nil_iff, List.filter_eq_nil_iff]
  intro r hr
  simp only [decide_eq_true_eq]
  rintro ⟨h1, h2, h3⟩
  have hA := hscope r hr h1 h2
  rw [h3] at hA
  exact Option.noConfusion hA

/-- Helper: when every assignment of the user in the tenant is scoped
to store `A`, the role-id query for a different store `B` is empty. -/
theorem storeRoleIds_eq_nil_of_ne {db : Db} {u t A B : Nat}
    (hscope : ∀ r ∈ db.user_roles, r.user_id = u → r.tenant_id = t →
        r.store_id = some A)
    (hBA : B ≠ A) :
    storeRoleIds db u t B = [] := by
  unfold storeRoleIds
  rw [List.map_eq_nil_iff, List.filter_eq_nil_iff]
  intro r hr
  simp only [decide_eq_true_eq]
  rintro ⟨h1, h2, h3⟩
  have hA := hscope r hr h1 h2
  rw [h3] at hA
  exact hBA (Option.some.inj hA)

/-- C2: when every role assignment of user `u` in tenant `t` is scoped
to store `A` and one of them assigns role `R` which grants permission
`pname`, the aggregation for store `A` contains `pname`, while the
aggregations for a different store `B` and for no store do not. -/
theorem c2_store_scope_isolation
    (db : Db) (u t R A B pid : Nat) (pname : String)
    (hscope : ∀ r ∈ db.user_roles, r.user_id = u → r.tenant_id = t →
        r.store_id = some A)
    (hmem : (⟨u, R, t, some A⟩ : UserRoleRow) ∈ db.user_roles)
    (hrp : (⟨R, pid⟩ : RolePermissionRow) ∈ db.role_permissions)
    (hp : (⟨pid, pname⟩ : PermissionRow) ∈ db.permissions)
    (hBA : B ≠ A) :
    pname ∈ get_user_permissions db u t (some A) ∧
    pname ∉ get_user_permissions db u t (some B) ∧
    pname ∉ get_user_permissions db u t none := by
  refine ⟨?_, ?_, ?_⟩
  · unfold get_user_permissions
    exact mem_rolePermissionNames
      (List.mem_append_right _ (mem_storeRoleIds hmem)) hrp hp
  · unfold get_user_permissions
    show pname ∉ rolePermissionNames db
      (tenantWideRoleIds db u t ++ storeRoleIds db u t B)
    rw [tenantWideRoleIds_eq_nil hscope, storeRoleIds_eq_nil_of_ne hscope hBA]
    simp [rolePermissionNames]
  · unfold get_user_permissions
    show pname ∉ rolePermissionNames db (tenantWideRoleIds db u t)
    rw [tenantWideRoleIds_eq_nil hscope]
    simp [rolePermissionNames]

/-- C2 witness: in `exampleStoreScopedDb` (role 10 scoped to store 3
granting `stores.edit`), the aggregation for store 3 contains
`stores.edit` while the ones for store 4 and for no store do not. -/
theorem c2_store_scope_isolation_witness :
    "stores.edit" ∈ get_user_permissions exampleStoreScopedDb 1 2 (some 3) ∧
    "stores.edit" ∉ get_user_permissions exampleStoreScopedDb 1 2 (some 4) ∧
    "stores.edit" ∉ get_user_permissions exampleStoreScopedDb 1 2 none :=
  c2_store_scope_isolation exampleStoreScopedDb 1 2 10 3 4 20 "stores.edit"
    (by decide) (by decide) (by decide) (by decide) (by decide)

/-- C8: a tenant-wide assignment (store id `none`) of a role granting
`pname` makes `pname` a member of the aggregation for every store
context and for the no-store context. -/
theorem c8_tenant_wide_grants_apply_everywhere
    (db : Db) (u t R pid : Nat) (pname : String)
    (hmem : (⟨u, R, t, none⟩ : UserRoleRow) ∈ db.user_roles)
    (hrp : (⟨R, pid⟩ : RolePermissionRow) ∈ db.role_permissions)
    (hp : (⟨pid, pname⟩ : PermissionRow) ∈ db.permissions) :
    ∀ s : Option Nat, pname ∈ get_user_permissions db u t s := by
  intro s
  have hR : R ∈ tenantWideRoleIds db u t := mem_tenantWideRoleIds hmem
  cases s with
  | none => exact mem_rolePermissionNames hR hrp hp
  | some sid =>
    unfold get_user_permissions
    exact mem_rolePermissionNames (List.mem_append_left _ hR) hrp hp

/-- C8 witness: in `exampleTenantWideDb` (role 10 tenant-wide granting
`users.create`), the aggregation contains `users.create` both for store
7 and for no store. -/
theorem c8_tenant_wide_grants_apply_everywhere_witness :
    "users.create" ∈ get_user_permissions exampleTenantWideDb 1 2 (some 7) ∧
    "users.create" ∈ get_user_permissions exampleTenantWideDb 1 2 none :=
  ⟨c8_tenant_wide_grants_apply_everywhere exampleTenantWideDb 1 2 10 20 "users.create"
      (by decide) (by decide) (by decide) (some 7),
   c8_tenant_wide_grants_apply_everywhere exampleTenantWideDb 1 2 10 20 "users.create"
      (by decide) (by decide) (by decide) none⟩

/-- C9 witness: logging out of `exampleRevokedDb` with a jti-less token
succeeds and changes nothing. -/
theorem c9_logout_without_jti_is_noop_witness :
    logout 5 exampleRevokedDb (.signed ⟨none, some 1, some 1, some "access", 0, some 10⟩) =
      .ok (exampleRevokedDb, "Logged out successfully") :=
  c9_logout_without_jti_is_noop 5 exampleRevokedDb _ rfl

/-- Helper: revoking all tokens of a user only touches the revocation
table — the other tables are unchanged. -/
theorem revoke_all_tokens_users_eq (now : Nat) (db : Db) (uid : Nat) :
    (revoke_all_tokens now db uid).users = db.users ∧
    (revoke_all_tokens now db uid).password_reset_tokens = db.password_reset_tokens := by
  unfold revoke_all_tokens
  cases db.user_token_revocations.find? (fun r => decide (r.user_id = uid)) with
  | none => exact ⟨rfl, rfl⟩
  | some r => exact ⟨rfl, rfl⟩

/-- Helper: after `revoke_all_tokens`, the user's revocation timestamp
reads back as `now` — whether a row existed (updated in place) or not
(freshly inserted). -/
theorem get_revocation_time_revoke_all (now : Nat) (db : Db) (uid : Nat) :
    get_revocation_time (revoke_all_tokens now db uid) uid = some now := by
  unfold revoke_all_tokens
  cases hf : db.user_token_revocations.find? (fun r => decide (r.user_id = uid)) with
  | none =>
    unfold get_revocation_time
    rw [List.find?_append, hf]
    simp
  | some r =>
    unfold get_revocation_time
    rw [List.find?_map]
    have hpf : ((fun r => decide (r.user_id = uid)) ∘
        (fun r : UserTokenRevocationRow =>
          if r.user_id = uid then { r with revoked_at := now } else r)) =
        (fun r : UserTokenRevocationRow => decide (r.user_id = uid)) := by
      funext x
      by_cases hx : x.user_id = uid
      · simp [hx]
      · simp [hx]
    rw [hpf, hf]
    have hru : r.user_id = uid := by
      have := List.find?_some hf
      simpa using this
    simp [hru]

/-- Helper: a valid reset token returned by `get_valid_token` is the
row the lookup by token value finds. -/
theorem get_valid_token_found {now : Nat} {db : Db} {tok : String}
    {rt : PasswordResetTokenRow}
    (h : get_valid_token now db tok = some rt) :
    db.password_reset_tokens.find? (fun r => decide (r.token = tok)) = some rt := by
  unfold get_valid_token at h
  cases hf : db.password_reset_tokens.find? (fun r => decide (r.token = tok)) with
  | none =>
    simp only [hf] at h
    exact h
  | some r =>
    simp only [hf] at h
    by_cases hv : r.is_valid now = true
    · rw [if_pos hv] at h
      exact h
    · rw [if_neg hv] at h
      exact Option.noConfusion h

/-- C10: every successful password reset — with `rt` the valid reset
token row and `u` the loaded active user — yields a state where the
user's revocation record reads `revoked_at = now` (upserted), the
user's password hash is replaced, the reset token is marked used, and
every token issued strictly before `now` is invalid under the
revoke-all rule (`iat < revoked_at`). -/
theorem c10_reset_password_revokes_all
    (now : Nat) (db : Db) (tok pw : String) (rt : PasswordResetTokenRow)
    (u : UserRow)
    (hrt : get_valid_token now db tok = some rt)
    (hu : db.findUser rt.user_id = some u)
    (db' : Db) (msg : String)
    (hok : reset_password now db tok pw = .ok (db', msg)) :
    get_revocation_time db' rt.user_id = some now ∧
    db'.users.find? (fun w => decide (w.id = rt.user_id)) =
      some { u with password_hash := hashPassword pw } ∧
    db'.password_reset_tokens.find? (fun w => decide (w.token = tok)) =
      some { rt with used_at := some now } ∧
    (∀ iatv, iatv < now →
      ∃ rv, get_revocation_time db' rt.user_id = some rv ∧ iatv < rv) := by
  have huid : u.id = rt.user_id := by
    have := List.find?_some hu
    simpa using this
  have hfind := get_valid_token_found hrt
  have htok : rt.token = tok := by
    have := List.find?_some hfind
    simpa using this
  unfold reset_password at hok
  simp only [hrt] at hok
  simp only [hu] at hok
  by_cases hact : u.is_active = false
  · rw [if_pos hact] at hok
    exact Except.noConfusion hok
  · rw [if_neg hact] at hok
    simp only [Except.ok.injEq, Prod.mk.injEq] at hok
    obtain ⟨hdb', hmsg⟩ := hok
    subst hdb'
    refine ⟨get_revocation_time_revoke_all now _ rt.user_id, ?_, ?_, ?_⟩
    · rw [(revoke_all_tokens_users_eq now _ rt.user_id).1]
      show (db.users.map
          (fun w => if w.id = rt.user_id then
            { w with password_hash := hashPassword pw } else w)).find?
          (fun w => decide (w.id = rt.user_id)) = _
      rw [List.find?_map]
      have hpf : ((fun w => decide (w.id = rt.user_id)) ∘
          (fun w : UserRow => if w.id = rt.user_id then
            { w with password_hash := hashPassword pw } else w)) =
          (fun w : UserRow => decide (w.id = rt.user_id)) := by
        funext x
        by_cases hx : x.id = rt.user_id
        · simp [hx]
        · simp [hx]
      rw [hpf]
      have hu' : db.users.find? (fun w => decide (w.id = rt.user_id)) = some u := hu
      rw [hu']
      simp [huid]
    · rw [(revoke_all_tokens_users_eq now _ rt.user_id).2]
      show (db.password_reset_tokens.map
          (fun w => if w.token = tok then { w with used_at := some now } else w)).find?
          (fun w => decide (w.token = tok)) = _
      rw [List.find?_map]
      have hpf : ((fun w => decide (w.token = tok)) ∘
          (fun w : PasswordResetTokenRow =>
            if w.token = tok then { w with used_at := some now } else w)) =
          (fun w : PasswordResetTokenRow => decide (w.token = tok)) := by
        funext x
        by_cases hx : x.token = tok
        · simp [hx]
        · simp [hx]
      rw [hpf]
      rw [hfind]
      simp [htok]
    · intro iatv hiat
      exact ⟨now, get_revocation_time_revoke_all now _ rt.user_id, hiat⟩

/-- C10 witness: resetting the password in `exampleResetDb` at time 50
succeeds and the resulting state has the user's revocation stamped at
50, the new password hash stored, and the reset token marked used. -/
theorem c10_reset_password_revokes_all_witness :
    get_revocation_time exampleResetDbAfter 1 = some 50 ∧
    exampleResetDbAfter.users.find? (fun w => decide (w.id = 1)) =
      some ⟨1, true, hashPassword "npw"⟩ ∧
    exampleResetDbAfter.password_reset_tokens.find? (fun w => decide (w.token = "tk")) =
      some ⟨"tk", 1, 100, some 50⟩ :=
  have h := c10_reset_password_revokes_all 50 exampleResetDb "tk" "npw"
    ⟨"tk", 1, 100, none⟩ ⟨1, true, "old"⟩ rfl rfl exampleResetDbAfter
    "Password has been reset successfully" rfl
  ⟨h.1, h.2.1, h.2.2.1⟩

end ItsDec
